import Mathlib

/-
Shallow embedding of the esp_net_manager component (net_manager.c / net_manager.h).

The state machine, lifecycle functions and NVS config persistence of the
component are translated into pure Lean functions.  Machine integers that can
overflow are modelled as Nat with explicit `% 2^w` (the `uint8_t`
ap_connected_clients counter); `int` counters are modelled as Int.  The
externally supplied ESP-IDF calls (esp_wifi_connect, vTaskDelay, nvs_*, ...)
are modelled at their interface boundary: calls with observable ordering are
recorded as explicit actions, and NVS is a blob store.
-/

namespace NetManager

/-- Status enumeration net_status_t from net_manager.h. -/
inductive NetStatus
  | uninitialized
  | stopped
  | started
  | connecting
  | connected
  | disconnected
  | waitingForReconnect
  | clientConnected
  | clientDisconnected
  deriving DecidableEq, Repr

/-- IPv4 address information, esp_netif_ip_info_t: ip, netmask, gateway as
32-bit values (modelled as Nat). -/
structure IpInfo where
  ip : Nat
  netmask : Nat
  gw : Nat
  deriving DecidableEq, Repr

/-- The all-zero address record, the state after memset 0. -/
def IpInfo.zero : IpInfo := ⟨0, 0, 0⟩

/-- Event source enumeration net_event_source_t. -/
inductive NetEventSource
  | sta
  | ap
  | ethernet
  deriving DecidableEq, Repr

/-- Payload attached to a dispatched event: the C struct carries a raw
void pointer; here the three shapes actually stored are distinguished. -/
inductive Payload
  | none
  | ipInfo (info : IpInfo)
  | client (desc : Nat)
  deriving DecidableEq, Repr

/-- Event structure net_manager_event_t passed to the user callback. -/
structure NetManagerEvent where
  source : NetEventSource
  status : NetStatus
  data : Payload
  deriving DecidableEq, Repr

/-- Status record net_manager_status_t.  ap_connected_clients is uint8_t in C,
so every update is taken modulo 256. -/
structure NetManagerStatus where
  staStatus : NetStatus
  apStatus : NetStatus
  ethStatus : NetStatus
  staIpInfo : IpInfo
  apIpInfo : IpInfo
  ethIpInfo : IpInfo
  apConnectedClients : Nat
  deriving DecidableEq, Repr

/-- The status record with every field zeroed, as after
memset(&s_status, 0, sizeof) in net_manager_init: enum value 0 is
NET_STATUS_UNINITIALIZED. -/
def zeroStatus : NetManagerStatus :=
  { staStatus := .uninitialized
    apStatus := .uninitialized
    ethStatus := .uninitialized
    staIpInfo := IpInfo.zero
    apIpInfo := IpInfo.zero
    ethIpInfo := IpInfo.zero
    apConnectedClients := 0 }

/-- The mutable module state of net_manager.c: the status record, the STA
retry counter (static int s_sta_retry_count), the interface handles (a Bool
records whether the pointer is non-NULL), the Ethernet driver handle array,
and whether a user callback is registered. -/
structure State where
  status : NetManagerStatus
  staRetryCount : Int
  netifSta : Bool
  netifAp : Bool
  netifEth : Bool
  ethHandles : Bool
  ethHandlesNum : Nat
  ethDriverStarted : Bool
  wifiStarted : Bool
  hasCallback : Bool
  deriving DecidableEq, Repr

/-- Which netif instance an IP_EVENT_STA_GOT_IP-style event carries:
the handler compares event->esp_netif against s_netif_sta and s_netif_eth. -/
inductive GotIpIf
  | staIf
  | ethIf
  | otherIf
  deriving DecidableEq, Repr

/-- Raw events delivered to event_handler, covering the (event_base,
event_id, event_data) combinations the handler distinguishes.  wifiApStart
carries the address that esp_netif_get_ip_info reports for the AP netif;
the client events carry the raw station descriptor. -/
inductive RawEvent
  | wifiStaStart
  | wifiStaDisconnected
  | wifiApStart (apIp : IpInfo)
  | wifiApStop
  | wifiApStaConnected (desc : Nat)
  | wifiApStaDisconnected (desc : Nat)
  | wifiOther
  | ipGotIp (which : GotIpIf) (info : IpInfo)
  | ethConnected
  | ethDisconnected
  | ethStart
  | ethStop
  | ethOther
  | otherBase
  deriving DecidableEq, Repr

/-- Observable actions performed by one run of event_handler, in program
order: a callback invocation, a vTaskDelay (in milliseconds), or a call to
esp_wifi_connect. -/
inductive Action
  | emit (e : NetManagerEvent)
  | delayMs (ms : Nat)
  | wifiConnect
  deriving DecidableEq, Repr

/-- Guarded callback invocation, mirroring if (s_user_callback)
s_user_callback(&event). -/
def emitIf (hasCb : Bool) (e : NetManagerEvent) : List Action :=
  if hasCb then [Action.emit e] else []

/-- The unified event handler of net_manager.c, as a function from the
module state and a raw event to the new state and the list of observable
actions in program order.  maxRetries is
CONFIG_NET_MANAGER_STA_RECONNECT_ATTEMPTS.  In the STA-disconnect case the
code increments s_sta_retry_count first and then delays
pdMS_TO_TICKS(1000 << s_sta_retry_count), so the delay uses the
post-increment counter; in the give-up branch event_to_dispatch still holds
the Disconnected event when the trailing dispatch runs, so Disconnected is
delivered a second time. -/
def event_handler (maxRetries : Int) (s : State) (ev : RawEvent) :
    State × List Action :=
  match ev with
  | .wifiStaStart =>
      ({ s with status := { s.status with staStatus := .connecting } },
        Action.wifiConnect :: emitIf s.hasCallback ⟨.sta, .connecting, .none⟩)
  | .wifiStaDisconnected =>
      let discEvent : NetManagerEvent := ⟨.sta, .disconnected, .none⟩
      if maxRetries < 0 ∨ s.staRetryCount < maxRetries then
        let n := s.staRetryCount + 1
        ({ s with
            staRetryCount := n
            status := { s.status with staStatus := .connecting } },
          emitIf s.hasCallback discEvent ++
            Action.delayMs (1000 * 2 ^ n.toNat) :: Action.wifiConnect ::
              emitIf s.hasCallback ⟨.sta, .connecting, .none⟩)
      else
        ({ s with status := { s.status with staStatus := .disconnected } },
          emitIf s.hasCallback discEvent ++ emitIf s.hasCallback discEvent)
  | .wifiApStart apIp =>
      ({ s with status := { s.status with apStatus := .started, apIpInfo := apIp } },
        emitIf s.hasCallback ⟨.ap, .started, .ipInfo apIp⟩)
  | .wifiApStop =>
      ({ s with status := { s.status with apStatus := .stopped } },
        emitIf s.hasCallback ⟨.ap, .stopped, .none⟩)
  | .wifiApStaConnected desc =>
      ({ s with status := { s.status with
          apConnectedClients := (s.status.apConnectedClients + 1) % 256 } },
        emitIf s.hasCallback ⟨.ap, .clientConnected, .client desc⟩)
  | .wifiApStaDisconnected desc =>
      ({ s with status := { s.status with
          apConnectedClients := (s.status.apConnectedClients + 255) % 256 } },
        emitIf s.hasCallback ⟨.ap, .clientDisconnected, .client desc⟩)
  | .wifiOther => (s, [])
  | .ipGotIp which info =>
      match which with
      | .staIf =>
          ({ s with
              staRetryCount := 0
              status := { s.status with staStatus := .connected, staIpInfo := info } },
            emitIf s.hasCallback ⟨.sta, .connected, .ipInfo info⟩)
      | .ethIf =>
          ({ s with status :=
              { s.status with ethStatus := .connected, ethIpInfo := info } },
            emitIf s.hasCallback ⟨.ethernet, .connected, .ipInfo info⟩)
      | .otherIf => (s, [])
  | .ethConnected =>
      ({ s with status := { s.status with ethStatus := .connecting } },
        emitIf s.hasCallback ⟨.ethernet, .connecting, .none⟩)
  | .ethDisconnected =>
      ({ s with status := { s.status with ethStatus := .disconnected } },
        emitIf s.hasCallback ⟨.ethernet, .disconnected, .none⟩)
  | .ethStart =>
      ({ s with status := { s.status with ethStatus := .started } },
        emitIf s.hasCallback ⟨.ethernet, .started, .none⟩)
  | .ethStop =>
      ({ s with status := { s.status with ethStatus := .stopped } },
        emitIf s.hasCallback ⟨.ethernet, .stopped, .none⟩)
  | .ethOther => (s, [])
  | .otherBase => (s, [])

/-- Sequential processing of a list of raw events, accumulating the
observable actions in order. -/
def runHandler (maxRetries : Int) (s : State) : List RawEvent → State × List Action
  | [] => (s, [])
  | ev :: rest =>
      let step := event_handler maxRetries s ev
      let tail := runHandler maxRetries step.1 rest
      (tail.1, step.2 ++ tail.2)

/-- Result codes esp_err_t, restricted to the values the component produces
or propagates. -/
inductive EspErr
  | ok
  | fail
  | errNvsNotFound
  | errNvsInvalidLength
  | errInvalidArg
  | errWifiNotStarted
  deriving DecidableEq, Repr

/-- Configuration net_config_wifi_sta_t: fixed-size char arrays are modelled
as byte lists, addresses as in IpInfo. -/
structure StaConfig where
  ssid : List Nat
  password : List Nat
  useStaticIp : Bool
  ipInfo : IpInfo
  dns1 : Nat
  dns2 : Nat
  deriving DecidableEq, Repr

/-- Configuration net_config_wifi_ap_t. -/
structure ApConfig where
  ssid : List Nat
  password : List Nat
  channel : Nat
  maxConnections : Nat
  deriving DecidableEq, Repr

/-- Configuration net_config_ethernet_t. -/
structure EthConfig where
  useStaticIp : Bool
  ipInfo : IpInfo
  dns1 : Nat
  dns2 : Nat
  deriving DecidableEq, Repr

/-- Master configuration net_manager_config_t. -/
structure NetManagerConfig where
  wifiStaEnabled : Bool
  wifiApEnabled : Bool
  ethernetEnabled : Bool
  wifiStaConfig : StaConfig
  wifiApConfig : ApConfig
  ethernetConfig : EthConfig
  deriving DecidableEq, Repr

/-- External environment of a start call: how many physical Ethernet devices
ethernet_init_all detects. -/
structure Env where
  ethDevices : Nat
  deriving DecidableEq, Repr

/-- The status record written by stop_all_interfaces: memset 0 followed by
setting the three per-interface statuses to NET_STATUS_STOPPED. -/
def stoppedStatus : NetManagerStatus :=
  { zeroStatus with
      staStatus := .stopped
      apStatus := .stopped
      ethStatus := .stopped }

/-- Translation of stop_all_interfaces: destroy the Ethernet netif (which
stops the driver), release the Ethernet driver handles, then, only when a
Wi-Fi netif existed, stop and deinit Wi-Fi and destroy the STA/AP netifs;
finally reset the status record and the retry counter. -/
def stop_all_interfaces (s : State) : State :=
  let wifiActive := s.netifSta || s.netifAp
  let s1 := if s.netifEth then
      { s with netifEth := false, ethDriverStarted := false } else s
  let s2 := if s1.ethHandles then
      { s1 with ethHandles := false, ethHandlesNum := 0 } else s1
  let s3 := if wifiActive then
      { s2 with wifiStarted := false, netifSta := false, netifAp := false }
    else s2
  { s3 with status := stoppedStatus, staRetryCount := 0 }

/-- Translation of net_manager_stop: stop_all_interfaces under the lock,
always returning ESP_OK. -/
def net_manager_stop (s : State) : State × EspErr :=
  (stop_all_interfaces s, EspErr.ok)

/-- Translation of start_sta: creates the STA netif and configures the radio;
the configuration calls are external and checked by ESP_ERROR_CHECK. -/
def start_sta (_cfg : StaConfig) (s : State) : State × EspErr :=
  ({ s with netifSta := true }, EspErr.ok)

/-- Translation of start_ap: creates the AP netif and configures the radio. -/
def start_ap (_cfg : ApConfig) (s : State) : State × EspErr :=
  ({ s with netifAp := true }, EspErr.ok)

/-- Translation of start_eth: ethernet_init_all fills the handle array with
env.ethDevices entries; when no device was initialized the function returns
ESP_FAIL before creating the netif or starting the driver, otherwise it
creates the netif, attaches the first handle and starts the driver. -/
def start_eth (env : Env) (_cfg : EthConfig) (s : State) : State × EspErr :=
  let s1 := { s with ethHandles := true, ethHandlesNum := env.ethDevices }
  if s1.ethHandlesNum = 0 then (s1, EspErr.fail)
  else ({ s1 with netifEth := true, ethDriverStarted := true }, EspErr.ok)

/-- Translation of net_manager_start for a non-NULL config argument: a full
stop first, then per-interface bring-up in source order (the esp_err_t
results of start_sta, start_ap and start_eth are discarded, exactly as in
the source), then esp_wifi_start when any Wi-Fi mode is enabled; the call
itself returns ESP_OK. -/
def net_manager_start (env : Env) (cfg : NetManagerConfig) (s : State) :
    State × EspErr :=
  let s0 := stop_all_interfaces s
  let isWifiNeeded := cfg.wifiStaEnabled || cfg.wifiApEnabled
  let s1 := if cfg.wifiStaEnabled then (start_sta cfg.wifiStaConfig s0).1 else s0
  let s2 := if cfg.wifiApEnabled then (start_ap cfg.wifiApConfig s1).1 else s1
  let s3 := if cfg.ethernetEnabled then (start_eth env cfg.ethernetConfig s2).1 else s2
  let s4 := if isWifiNeeded then { s3 with wifiStarted := true } else s3
  (s4, EspErr.ok)

/-- Modelled from the spec: the persistent key-value store under the fixed
namespace/key pair used by the component ("net_manager"/"net_config").  The
ESP-IDF NVS implementation is not part of this repository; a stored blob is
modelled by its byte length together with, when the bytes are the exact
image of a net_manager_config_t, that configuration value (content = none
models a byte string that is not the image of any saved configuration). -/
structure NvsBlob where
  content : Option NetManagerConfig
  size : Nat
  deriving DecidableEq, Repr

/-- Modelled from the spec: the store holds at most one blob under the fixed
key; an empty store has no entry. -/
structure NvsStore where
  blob : Option NvsBlob
  deriving DecidableEq, Repr

/-- The byte size sizeof(net_manager_config_t) of the configuration schema.
The exact platform-dependent value is immaterial: the code only ever
compares stored sizes against this constant. -/
def configBlobSize : Nat := 236

/-- Result of a modelled nvs_get_blob call: the error code, the
interpretable content the caller's buffer holds afterwards (none when the
copy was partial or the bytes are not a configuration image), and the size
written back through the length pointer. -/
structure GetBlobResult where
  err : EspErr
  written : Option NetManagerConfig
  requiredSize : Nat
  deriving DecidableEq, Repr

/-- Modelled from the spec: nvs_get_blob with a caller buffer of bufSize
bytes.  No entry yields ESP_ERR_NVS_NOT_FOUND; a stored blob larger than the
buffer yields ESP_ERR_NVS_INVALID_LENGTH; otherwise the blob is copied and
the stored size reported back, so a shorter blob leaves the caller's struct
only partially populated (written = none). -/
def nvs_get_blob (store : NvsStore) (bufSize : Nat) : GetBlobResult :=
  match store.blob with
  | Option.none => ⟨EspErr.errNvsNotFound, Option.none, bufSize⟩
  | Option.some b =>
      if bufSize < b.size then ⟨EspErr.errNvsInvalidLength, Option.none, b.size⟩
      else if b.size = configBlobSize then ⟨EspErr.ok, b.content, b.size⟩
      else ⟨EspErr.ok, Option.none, b.size⟩

/-- Modelled from the spec: nvs_set_blob stores the raw bytes of the given
configuration, sizeof(net_manager_config_t) of them, under the fixed key. -/
def nvs_set_blob (store : NvsStore) (c : NetManagerConfig) : NvsStore :=
  { store with blob := Option.some ⟨Option.some c, configBlobSize⟩ }

/-- Translation of net_manager_save_config_to_nvs on the modelled store:
open, set_blob of the whole struct, commit, close (open and commit of the
external store are modelled as succeeding). -/
def net_manager_save_config_to_nvs (store : NvsStore) (c : NetManagerConfig) :
    NvsStore × EspErr :=
  (nvs_set_blob store c, EspErr.ok)

/-- Result of a load: the returned esp_err_t, and the configuration the
caller may rely on (some only when ESP_OK is returned with a fully
populated struct). -/
structure LoadResult where
  err : EspErr
  config : Option NetManagerConfig
  deriving DecidableEq, Repr

/-- Translation of net_manager_load_config_from_nvs: get_blob with
required_size preset to sizeof(net_manager_config_t); when get_blob
succeeded but wrote back a different size the function returns ESP_FAIL
(schema mismatch), otherwise it propagates the get_blob error code. -/
def net_manager_load_config_from_nvs (store : NvsStore) : LoadResult :=
  let r := nvs_get_blob store configBlobSize
  if r.err = EspErr.ok ∧ r.requiredSize ≠ configBlobSize then
    ⟨EspErr.fail, Option.none⟩
  else
    ⟨r.err, if r.err = EspErr.ok then r.written else Option.none⟩

/-- Translation of net_manager_get_ip_info: only the STA and Ethernet
sources are mapped to a netif; a NULL netif (including every AP query)
yields ESP_ERR_INVALID_ARG, otherwise the result of the external
esp_netif_get_ip_info call is returned. -/
def net_manager_get_ip_info (s : State) (source : NetEventSource)
    (extResult : EspErr) : EspErr :=
  let netif := match source with
    | .sta => s.netifSta
    | .ethernet => s.netifEth
    | .ap => false
  if netif = false then EspErr.errInvalidArg else extResult

/-- DNS record selector esp_netif_dns_type_t. -/
inductive DnsType
  | main
  | backup
  | fallbackDns
  deriving DecidableEq, Repr

/-- Translation of net_manager_get_dns_info: same netif selection as
net_manager_get_ip_info, then the external esp_netif_get_dns_info call. -/
def net_manager_get_dns_info (s : State) (source : NetEventSource)
    (_dnsType : DnsType) (extResult : EspErr) : EspErr :=
  let netif := match source with
    | .sta => s.netifSta
    | .ethernet => s.netifEth
    | .ap => false
  if netif = false then EspErr.errInvalidArg else extResult

/-- The module state right after net_manager_init with a registered
callback: zeroed status record, no interface handles, retry counter 0. -/
def initState : State :=
  { status := zeroStatus
    staRetryCount := 0
    netifSta := false
    netifAp := false
    netifEth := false
    ethHandles := false
    ethHandlesNum := 0
    ethDriverStarted := false
    wifiStarted := false
    hasCallback := true }

/-- Configuration enabling only the Wi-Fi station. -/
def staOnlyConfig : NetManagerConfig :=
  { wifiStaEnabled := true
    wifiApEnabled := false
    ethernetEnabled := false
    wifiStaConfig := ⟨[], [], false, IpInfo.zero, 0, 0⟩
    wifiApConfig := ⟨[], [], 1, 4⟩
    ethernetConfig := ⟨false, IpInfo.zero, 0, 0⟩ }

/-- Module state after net_manager_start of the STA-only configuration. -/
def staStartedState : State :=
  (net_manager_start ⟨1⟩ staOnlyConfig initState).1

/-- Configuration enabling the Wi-Fi station together with Ethernet. -/
def staEthConfig : NetManagerConfig :=
  { staOnlyConfig with ethernetEnabled := true }

/-- The backoff delays, in milliseconds, taken during a list of actions, in
order. -/
def delaysOf (acts : List Action) : List Nat :=
  acts.filterMap fun a => match a with
    | .delayMs ms => Option.some ms
    | _ => Option.none

/-- A run of k consecutive raw STA disconnect events. -/
def disconnects (k : Nat) : List RawEvent :=
  List.replicate k RawEvent.wifiStaDisconnected

/-- A run of n AP client-join events for the given client descriptor. -/
def clientJoins (desc : Nat) (n : Nat) : List RawEvent :=
  List.replicate n (RawEvent.wifiApStaConnected desc)

/-- A run of n AP client-leave events for the given client descriptor. -/
def clientLeaves (desc : Nat) (n : Nat) : List RawEvent :=
  List.replicate n (RawEvent.wifiApStaDisconnected desc)

/-- Whether an action is the emission of a Connecting event. -/
def isConnectingEmit : Action → Bool
  | .emit e => e.status = NetStatus.connecting
  | _ => false

/-- Number of Connecting events emitted during a list of actions. -/
def countConnecting (acts : List Action) : Nat :=
  (acts.filter isConnectingEmit).length

/-- The Disconnected event dispatched to the subscriber on a raw STA
disconnect. -/
def staDisconnectedEvent : NetManagerEvent := ⟨.sta, .disconnected, .none⟩

/-- A concrete non-zero address record used in scenario runs
(192.168.1.1/24 with gateway 192.168.1.254). -/
def sampleIp : IpInfo := ⟨0xC0A80101, 0xFFFFFF00, 0xC0A801FE⟩

/- Basic facts about runHandler. -/

theorem runHandler_append (maxRetries : Int) (l1 l2 : List RawEvent) :
    ∀ s : State, runHandler maxRetries s (l1 ++ l2) =
      ((runHandler maxRetries (runHandler maxRetries s l1).1 l2).1,
        (runHandler maxRetries s l1).2 ++
          (runHandler maxRetries (runHandler maxRetries s l1).1 l2).2) := by
  induction l1 with
  | nil => intro s; simp [runHandler]
  | cons ev rest ih =>
      intro s
      simp only [List.cons_append, runHandler, List.append_eq]
      rw [ih]
      simp [List.append_assoc]

/- Facts about stop_all_interfaces. -/

theorem stop_all_interfaces_handles (s : State) :
    (stop_all_interfaces s).netifSta = false ∧
    (stop_all_interfaces s).netifAp = false ∧
    (stop_all_interfaces s).netifEth = false ∧
    (stop_all_interfaces s).ethHandles = false := by
  simp only [stop_all_interfaces]
  split <;> split <;> split <;> simp_all

theorem stop_all_interfaces_status (s : State) :
    (stop_all_interfaces s).status = stoppedStatus ∧
    (stop_all_interfaces s).staRetryCount = 0 :=
  ⟨rfl, rfl⟩

theorem stop_all_interfaces_idem (s : State) :
    stop_all_interfaces (stop_all_interfaces s) = stop_all_interfaces s := by
  cases s with
  | mk status retry nSta nAp nEth eh ehn eds ws cb =>
      cases nSta <;> cases nAp <;> cases nEth <;> cases eh <;> rfl

/-- C9: stop is idempotent: from any state, calling stop twice in succession
produces the same end state as calling it once, and after any stop all three
per-interface statuses are Stopped and the STA retry counter is zero. -/
theorem c9_stop_idempotent (s : State) :
    net_manager_stop (net_manager_stop s).1 = net_manager_stop s ∧
    (net_manager_stop s).1.status.staStatus = NetStatus.stopped ∧
    (net_manager_stop s).1.status.apStatus = NetStatus.stopped ∧
    (net_manager_stop s).1.status.ethStatus = NetStatus.stopped ∧
    (net_manager_stop s).1.staRetryCount = 0 := by
  have hs := (stop_all_interfaces_status s).1
  refine ⟨?_, ?_, ?_, ?_, (stop_all_interfaces_status s).2⟩
  · simp [net_manager_stop, stop_all_interfaces_idem]
  all_goals simp [net_manager_stop, hs, stoppedStatus, zeroStatus]

/-- C10: get_ip_info and get_dns_info with source = AP return the
invalid-argument error regardless of the state of the AP interface and of
what the underlying netif query would return: only the STA and Ethernet
sources are ever mapped to a queryable netif. -/
theorem c10_ap_query_rejected (s : State) (extIp extDns : EspErr) (t : DnsType) :
    net_manager_get_ip_info s NetEventSource.ap extIp = EspErr.errInvalidArg ∧
    net_manager_get_dns_info s NetEventSource.ap t extDns = EspErr.errInvalidArg :=
  ⟨rfl, rfl⟩

/-- C8: save_config followed by load_config succeeds and returns a value
equal to the saved configuration, for every configuration and prior store
content; load_config on an empty store returns the distinct not-found
outcome rather than success. -/
theorem c8_save_load_roundtrip (store : NvsStore) (c : NetManagerConfig) :
    net_manager_load_config_from_nvs (net_manager_save_config_to_nvs store c).1 =
      ⟨EspErr.ok, Option.some c⟩ ∧
    (net_manager_load_config_from_nvs ⟨Option.none⟩).err = EspErr.errNvsNotFound ∧
    (net_manager_load_config_from_nvs ⟨Option.none⟩).err ≠ EspErr.ok :=
  ⟨rfl, rfl, by decide⟩

/-- C7: load_config fails distinctly in the two failure cases: an empty
store yields the not-found code, while a stored blob whose byte length
differs from sizeof(net_manager_config_t) yields an error different from
both not-found and success, and no configuration is handed to the caller. -/
theorem c7_load_error_distinction :
    (net_manager_load_config_from_nvs ⟨Option.none⟩).err = EspErr.errNvsNotFound ∧
    ∀ b : NvsBlob, b.size ≠ configBlobSize →
      (net_manager_load_config_from_nvs ⟨Option.some b⟩).err ≠ EspErr.ok ∧
      (net_manager_load_config_from_nvs ⟨Option.some b⟩).err ≠ EspErr.errNvsNotFound ∧
      (net_manager_load_config_from_nvs ⟨Option.some b⟩).config = Option.none := by
  refine ⟨rfl, fun b hb => ?_⟩
  by_cases h : configBlobSize < b.size
  · simp [net_manager_load_config_from_nvs, nvs_get_blob, h, hb]
  · simp [net_manager_load_config_from_nvs, nvs_get_blob, h, hb]

/-- Witness for C7 at the concrete wrong-length blob of 10 bytes. -/
theorem c7_load_error_distinction_witness :
    (10 : Nat) ≠ configBlobSize ∧
    (net_manager_load_config_from_nvs ⟨Option.some ⟨Option.none, 10⟩⟩).err ≠ EspErr.ok ∧
    (net_manager_load_config_from_nvs ⟨Option.some ⟨Option.none, 10⟩⟩).err ≠
      EspErr.errNvsNotFound ∧
    (net_manager_load_config_from_nvs ⟨Option.some ⟨Option.none, 10⟩⟩).config =
      Option.none :=
  ⟨by decide, c7_load_error_distinction.2 ⟨Option.none, 10⟩ (by decide)⟩

/-- C6: on every STA disconnect event handled with a registered subscriber,
the very first observable action of the handling step is the synchronous
emission of the Disconnected event, before any backoff delay and before any
Connecting emission of the same step. -/
theorem c6_disconnected_emitted_first (maxRetries : Int) (s : State)
    (hcb : s.hasCallback = true) :
    ∃ rest, (event_handler maxRetries s RawEvent.wifiStaDisconnected).2 =
      Action.emit staDisconnectedEvent :: rest := by
  by_cases hc : maxRetries < 0 ∨ s.staRetryCount < maxRetries
  · exact ⟨[Action.delayMs (1000 * 2 ^ (s.staRetryCount + 1).toNat),
      Action.wifiConnect, Action.emit ⟨NetEventSource.sta, NetStatus.connecting, Payload.none⟩],
      by simp [event_handler, emitIf, hcb, hc, staDisconnectedEvent]⟩
  · exact ⟨[Action.emit staDisconnectedEvent],
      by simp [event_handler, emitIf, hcb, hc, staDisconnectedEvent]⟩

/-- Witness for C6 at the started STA state with max-retries 3. -/
theorem c6_disconnected_emitted_first_witness :
    staStartedState.hasCallback = true ∧
    ∃ rest, (event_handler 3 staStartedState RawEvent.wifiStaDisconnected).2 =
      Action.emit staDisconnectedEvent :: rest :=
  ⟨by decide, c6_disconnected_emitted_first 3 staStartedState (by decide)⟩

/-- C1 counterexample: at retry count n = 0 with configured maximum M = 3
(so the retry condition n < M of the claim holds), the single backoff delay
the dispatcher takes is 2000 ms = 2 time units, not the claimed
base_delay << n = 1000 * 2 ^ 0 = 1 time unit: the code increments the
counter before computing the delay. -/
theorem c1_backoff_formula_counterexample :
    staStartedState.staRetryCount = 0 ∧
    delaysOf (event_handler 3 staStartedState RawEvent.wifiStaDisconnected).2 = [2000] ∧
    1000 * 2 ^ 0 = 1000 ∧ (2000 : Nat) ≠ 1000 := by
  decide

/-- C1 amended: when M < 0 or n < M the dispatcher increments n first and
then waits base_delay << n with the incremented counter, i.e. the delay for
pre-increment count n is base_delay * 2 ^ (n + 1) (base_delay = 1000 ms =
1 time unit); in the concrete 3-retry scenario the successive delays are
2000, 4000 and 8000 ms, i.e. 2, 4 and 8 time units. -/
theorem c1_backoff_delay (maxRetries : Int) (s : State)
    (hcb : s.hasCallback = true)
    (hc : maxRetries < 0 ∨ s.staRetryCount < maxRetries) :
    (event_handler maxRetries s RawEvent.wifiStaDisconnected).2 =
      [Action.emit staDisconnectedEvent,
        Action.delayMs (1000 * 2 ^ (s.staRetryCount + 1).toNat),
        Action.wifiConnect,
        Action.emit ⟨NetEventSource.sta, NetStatus.connecting, Payload.none⟩] ∧
    (event_handler maxRetries s RawEvent.wifiStaDisconnected).1.staRetryCount =
      s.staRetryCount + 1 ∧
    delaysOf (runHandler 3 staStartedState (disconnects 3)).2 = [2000, 4000, 8000] := by
  refine ⟨?_, ?_, by decide⟩ <;>
    simp [event_handler, emitIf, hcb, hc, staDisconnectedEvent]

/-- Witness for C1 amended at the started STA state with max-retries 3. -/
theorem c1_backoff_delay_witness :
    (staStartedState.hasCallback = true ∧
      ((3 : Int) < 0 ∨ staStartedState.staRetryCount < 3)) ∧
    (event_handler 3 staStartedState RawEvent.wifiStaDisconnected).2 =
      [Action.emit staDisconnectedEvent,
        Action.delayMs (1000 * 2 ^ (staStartedState.staRetryCount + 1).toNat),
        Action.wifiConnect,
        Action.emit ⟨NetEventSource.sta, NetStatus.connecting, Payload.none⟩] ∧
    (event_handler 3 staStartedState RawEvent.wifiStaDisconnected).1.staRetryCount =
      staStartedState.staRetryCount + 1 ∧
    delaysOf (runHandler 3 staStartedState (disconnects 3)).2 = [2000, 4000, 8000] :=
  ⟨⟨by decide, by decide⟩, c1_backoff_delay 3 staStartedState (by decide) (by decide)⟩

/-- C3 counterexample: starting with Wi-Fi STA and Ethernet enabled while
zero physical Ethernet devices are detected aborts the Ethernet bring-up
and leaves Wi-Fi running, but net_manager_start returns ESP_OK, not the
non-OK result the claim requires: the ESP_FAIL from start_eth is
discarded. -/
theorem c3_start_reports_ok_counterexample :
    (net_manager_start ⟨0⟩ staEthConfig initState).2 = EspErr.ok ∧
    (net_manager_start ⟨0⟩ staEthConfig initState).1.netifEth = false ∧
    (net_manager_start ⟨0⟩ staEthConfig initState).1.ethDriverStarted = false ∧
    (net_manager_start ⟨0⟩ staEthConfig initState).1.netifSta = true ∧
    (net_manager_start ⟨0⟩ staEthConfig initState).1.wifiStarted = true := by
  decide

/-- C3 amended: when Ethernet bring-up fails during start because zero
physical Ethernet devices are detected, only the Ethernet portion is
aborted (no Ethernet netif is created and the handle count stays zero) and
any enabled Wi-Fi station is brought up and the radio started, but the
failure is not reported to the caller: start returns ESP_OK. -/
theorem c3_eth_failure_isolated (env : Env) (cfg : NetManagerConfig) (s : State)
    (henv : env.ethDevices = 0) (heth : cfg.ethernetEnabled = true) :
    (net_manager_start env cfg s).2 = EspErr.ok ∧
    (net_manager_start env cfg s).1.netifEth = false ∧
    (net_manager_start env cfg s).1.ethHandlesNum = 0 ∧
    (cfg.wifiStaEnabled = true →
      (net_manager_start env cfg s).1.netifSta = true ∧
      (net_manager_start env cfg s).1.wifiStarted = true) := by
  have hstop := stop_all_interfaces_handles s
  cases hsta : cfg.wifiStaEnabled <;> cases hap : cfg.wifiApEnabled <;>
    simp [net_manager_start, start_sta, start_ap, start_eth, henv, heth,
      hsta, hap, hstop.2.2.1]

/-- Witness for C3 amended at the concrete zero-device environment. -/
theorem c3_eth_failure_isolated_witness :
    ((⟨0⟩ : Env).ethDevices = 0 ∧ staEthConfig.ethernetEnabled = true) ∧
    (net_manager_start ⟨0⟩ staEthConfig initState).2 = EspErr.ok ∧
    (net_manager_start ⟨0⟩ staEthConfig initState).1.netifEth = false ∧
    (net_manager_start ⟨0⟩ staEthConfig initState).1.ethHandlesNum = 0 ∧
    (staEthConfig.wifiStaEnabled = true →
      (net_manager_start ⟨0⟩ staEthConfig initState).1.netifSta = true ∧
      (net_manager_start ⟨0⟩ staEthConfig initState).1.wifiStarted = true) :=
  ⟨⟨by decide, by decide⟩,
    c3_eth_failure_isolated ⟨0⟩ staEthConfig initState (by decide) (by decide)⟩

/- The AP connected-client counter across join and leave runs. -/

theorem clientJoins_counter (maxRetries : Int) (desc : Nat) :
    ∀ (n : Nat) (s : State), s.status.apConnectedClients < 256 →
      (runHandler maxRetries s (clientJoins desc n)).1.status.apConnectedClients =
        (s.status.apConnectedClients + n) % 256 := by
  intro n
  induction n with
  | zero =>
      intro s h
      simp [clientJoins, runHandler, Nat.mod_eq_of_lt h]
  | succ n ih =>
      intro s h
      have hstep :
          (event_handler maxRetries s (RawEvent.wifiApStaConnected desc)).1.status.apConnectedClients =
            (s.status.apConnectedClients + 1) % 256 := by
        simp [event_handler]
      simp only [clientJoins, List.replicate_succ, runHandler]
      rw [show (List.replicate n (RawEvent.wifiApStaConnected desc)) =
        clientJoins desc n from rfl]
      rw [ih _ (by rw [hstep]; exact Nat.mod_lt _ (by norm_num)), hstep]
      omega

theorem clientLeaves_counter (maxRetries : Int) (desc : Nat) :
    ∀ (m : Nat) (s : State), s.status.apConnectedClients < 256 →
      (runHandler maxRetries s (clientLeaves desc m)).1.status.apConnectedClients =
        (s.status.apConnectedClients + 255 * m) % 256 := by
  intro m
  induction m with
  | zero =>
      intro s h
      simp [clientLeaves, runHandler, Nat.mod_eq_of_lt h]
  | succ m ih =>
      intro s h
      have hstep :
          (event_handler maxRetries s (RawEvent.wifiApStaDisconnected desc)).1.status.apConnectedClients =
            (s.status.apConnectedClients + 255) % 256 := by
        simp [event_handler]
      simp only [clientLeaves, List.replicate_succ, runHandler]
      rw [show (List.replicate m (RawEvent.wifiApStaDisconnected desc)) =
        clientLeaves desc m from rfl]
      rw [ih _ (by rw [hstep]; exact Nat.mod_lt _ (by norm_num)), hstep]
      omega

/-- C2 counterexample: a leave event while the counter is zero does not
leave it at zero: the uint8_t counter is decremented without a check and
wraps around to 255. -/
theorem c2_saturation_counterexample :
    initState.status.apConnectedClients = 0 ∧
    (event_handler 3 initState (RawEvent.wifiApStaDisconnected 7)).1.status.apConnectedClients = 255 ∧
    (255 : Nat) ≠ 0 := by
  decide

/-- C2 amended: the connected-client counter is a uint8_t updated without
saturation, so N join events followed by M ≤ N leave events from the fresh
zero counter yield (N − M) mod 256, and a spurious leave event while the
counter is zero wraps it to 255 rather than leaving it at zero.  The
counter is never negative only because it is unsigned. -/
theorem c2_client_counter_mod (maxRetries : Int) (desc : Nat) (n m : Nat)
    (hmn : m ≤ n) :
    (runHandler maxRetries initState
        (clientJoins desc n ++ clientLeaves desc m)).1.status.apConnectedClients =
      (n - m) % 256 ∧
    ∀ s : State, s.status.apConnectedClients = 0 →
      (event_handler maxRetries s (RawEvent.wifiApStaDisconnected desc)).1.status.apConnectedClients = 255 := by
  constructor
  · have happ := congrArg Prod.fst
      (runHandler_append maxRetries (clientJoins desc n) (clientLeaves desc m) initState)
    simp only at happ
    rw [happ]
    have hjoin := clientJoins_counter maxRetries desc n initState (by decide)
    have hlt : (runHandler maxRetries initState (clientJoins desc n)).1.status.apConnectedClients < 256 := by
      rw [hjoin]; exact Nat.mod_lt _ (by norm_num)
    rw [clientLeaves_counter maxRetries desc m _ hlt, hjoin]
    have h0 : initState.status.apConnectedClients = 0 := by decide
    rw [h0]
    omega
  · intro s h
    simp [event_handler, h]

/-- Witness for C2 amended at 3 joins followed by 2 leaves. -/
theorem c2_client_counter_mod_witness :
    (2 : Nat) ≤ 3 ∧
    (runHandler 3 initState
        (clientJoins 7 3 ++ clientLeaves 7 2)).1.status.apConnectedClients =
      (3 - 2) % 256 :=
  ⟨by decide, (c2_client_counter_mod 3 7 3 2 (by decide)).1⟩

/- Provenance of the stored STA address information. -/

theorem event_handler_staIpInfo (maxRetries : Int) (s : State) (ev : RawEvent) :
    (event_handler maxRetries s ev).1.status.staIpInfo = s.status.staIpInfo ∨
    ∃ info, ev = RawEvent.ipGotIp GotIpIf.staIf info ∧
      (event_handler maxRetries s ev).1.status.staIpInfo = info := by
  cases ev
  case wifiStaDisconnected =>
    by_cases hc : maxRetries < 0 ∨ s.staRetryCount < maxRetries <;>
      (left; simp [event_handler, hc])
  case ipGotIp which info =>
    cases which with
    | staIf => exact Or.inr ⟨info, rfl, by simp [event_handler]⟩
    | ethIf => left; simp [event_handler]
    | otherIf => left; rfl
  all_goals left; simp [event_handler]

theorem event_handler_ethIpInfo (maxRetries : Int) (s : State) (ev : RawEvent) :
    (event_handler maxRetries s ev).1.status.ethIpInfo = s.status.ethIpInfo ∨
    ∃ info, ev = RawEvent.ipGotIp GotIpIf.ethIf info ∧
      (event_handler maxRetries s ev).1.status.ethIpInfo = info := by
  cases ev
  case wifiStaDisconnected =>
    by_cases hc : maxRetries < 0 ∨ s.staRetryCount < maxRetries <;>
      (left; simp [event_handler, hc])
  case ipGotIp which info =>
    cases which with
    | staIf => left; simp [event_handler]
    | ethIf => exact Or.inr ⟨info, rfl, by simp [event_handler]⟩
    | otherIf => left; rfl
  all_goals left; simp [event_handler]

theorem event_handler_apIpInfo (maxRetries : Int) (s : State) (ev : RawEvent) :
    (event_handler maxRetries s ev).1.status.apIpInfo = s.status.apIpInfo ∨
    ∃ info, ev = RawEvent.wifiApStart info ∧
      (event_handler maxRetries s ev).1.status.apIpInfo = info := by
  cases ev
  case wifiStaDisconnected =>
    by_cases hc : maxRetries < 0 ∨ s.staRetryCount < maxRetries <;>
      (left; simp [event_handler, hc])
  case wifiApStart apIp =>
    exact Or.inr ⟨apIp, rfl, by simp [event_handler]⟩
  case ipGotIp which info =>
    cases which <;> (left; simp [event_handler])
  all_goals left; simp [event_handler]

theorem staIpInfo_source (maxRetries : Int) :
    ∀ (evs : List RawEvent) (s : State),
      (runHandler maxRetries s evs).1.status.staIpInfo = s.status.staIpInfo ∨
      ∃ info, RawEvent.ipGotIp GotIpIf.staIf info ∈ evs ∧
        (runHandler maxRetries s evs).1.status.staIpInfo = info := by
  intro evs
  induction evs with
  | nil => intro s; left; rfl
  | cons ev rest ih =>
      intro s
      have hrun : (runHandler maxRetries s (ev :: rest)).1 =
          (runHandler maxRetries (event_handler maxRetries s ev).1 rest).1 := rfl
      rcases ih (event_handler maxRetries s ev).1 with h1 | ⟨info, hmem, hval⟩
      · rcases event_handler_staIpInfo maxRetries s ev with h2 | ⟨info, hev, hval⟩
        · left; rw [hrun, h1, h2]
        · refine Or.inr ⟨info, ?_, by rw [hrun, h1, hval]⟩
          rw [hev]; exact List.mem_cons_self _ _
      · exact Or.inr ⟨info, List.mem_cons_of_mem _ hmem, by rw [hrun]; exact hval⟩

theorem ethIpInfo_source (maxRetries : Int) :
    ∀ (evs : List RawEvent) (s : State),
      (runHandler maxRetries s evs).1.status.ethIpInfo = s.status.ethIpInfo ∨
      ∃ info, RawEvent.ipGotIp GotIpIf.ethIf info ∈ evs ∧
        (runHandler maxRetries s evs).1.status.ethIpInfo = info := by
  intro evs
  induction evs with
  | nil => intro s; left; rfl
  | cons ev rest ih =>
      intro s
      have hrun : (runHandler maxRetries s (ev :: rest)).1 =
          (runHandler maxRetries (event_handler maxRetries s ev).1 rest).1 := rfl
      rcases ih (event_handler maxRetries s ev).1 with h1 | ⟨info, hmem, hval⟩
      · rcases event_handler_ethIpInfo maxRetries s ev with h2 | ⟨info, hev, hval⟩
        · left; rw [hrun, h1, h2]
        · refine Or.inr ⟨info, ?_, by rw [hrun, h1, hval]⟩
          rw [hev]; exact List.mem_cons_self _ _
      · exact Or.inr ⟨info, List.mem_cons_of_mem _ hmem, by rw [hrun]; exact hval⟩

theorem apIpInfo_source (maxRetries : Int) :
    ∀ (evs : List RawEvent) (s : State),
      (runHandler maxRetries s evs).1.status.apIpInfo = s.status.apIpInfo ∨
      ∃ info, RawEvent.wifiApStart info ∈ evs ∧
        (runHandler maxRetries s evs).1.status.apIpInfo = info := by
  intro evs
  induction evs with
  | nil => intro s; left; rfl
  | cons ev rest ih =>
      intro s
      have hrun : (runHandler maxRetries s (ev :: rest)).1 =
          (runHandler maxRetries (event_handler maxRetries s ev).1 rest).1 := rfl
      rcases ih (event_handler maxRetries s ev).1 with h1 | ⟨info, hmem, hval⟩
      · rcases event_handler_apIpInfo maxRetries s ev with h2 | ⟨info, hev, hval⟩
        · left; rw [hrun, h1, h2]
        · refine Or.inr ⟨info, ?_, by rw [hrun, h1, hval]⟩
          rw [hev]; exact List.mem_cons_self _ _
      · exact Or.inr ⟨info, List.mem_cons_of_mem _ hmem, by rw [hrun]; exact hval⟩

/-- Scenario run for C4: connect successfully (address stored), then a raw
disconnect with max-retries 0 so the interface settles in Disconnected. -/
def c4DemoEvents : List RawEvent :=
  [RawEvent.wifiStaStart, RawEvent.ipGotIp GotIpIf.staIf sampleIp,
    RawEvent.wifiStaDisconnected]

/-- C4 counterexample: after a connect followed by a disconnect the stored
STA address information is still non-zero while the STA status is no longer
Connected, so the claimed self-consistency invariant fails at this
quiescent point: the dispatcher never zeroes the address on disconnect. -/
theorem c4_consistency_counterexample :
    (runHandler 0 staStartedState c4DemoEvents).1.status.staIpInfo ≠ IpInfo.zero ∧
    (runHandler 0 staStartedState c4DemoEvents).1.status.staStatus ≠ NetStatus.connected := by
  decide

/-- C4 amended: an interface's AddressInfo is non-zero at a quiescent point
only if the event that stores address information for that interface
occurred earlier in the run and stored exactly that address — a got-IP
(Connected transition) event for STA and for Ethernet, and the AP-start
event (status Started, whose address payload is populated at start rather
than at a Connected transition) for AP; no address is zeroed on disconnect
or AP stop, so it may remain non-zero (stale) while the interface's status
is not Connected. -/
theorem c4_stale_address_provenance (maxRetries : Int) (evs : List RawEvent) :
    ((runHandler maxRetries staStartedState evs).1.status.staIpInfo ≠ IpInfo.zero →
      ∃ info, RawEvent.ipGotIp GotIpIf.staIf info ∈ evs ∧
        (runHandler maxRetries staStartedState evs).1.status.staIpInfo = info) ∧
    ((runHandler maxRetries staStartedState evs).1.status.ethIpInfo ≠ IpInfo.zero →
      ∃ info, RawEvent.ipGotIp GotIpIf.ethIf info ∈ evs ∧
        (runHandler maxRetries staStartedState evs).1.status.ethIpInfo = info) ∧
    ((runHandler maxRetries staStartedState evs).1.status.apIpInfo ≠ IpInfo.zero →
      ∃ info, RawEvent.wifiApStart info ∈ evs ∧
        (runHandler maxRetries staStartedState evs).1.status.apIpInfo = info) := by
  refine ⟨fun h => ?_, fun h => ?_, fun h => ?_⟩
  · rcases staIpInfo_source maxRetries evs staStartedState with h0 | h1
    · exact absurd (by rw [h0]; rfl) h
    · exact h1
  · rcases ethIpInfo_source maxRetries evs staStartedState with h0 | h1
    · exact absurd (by rw [h0]; rfl) h
    · exact h1
  · rcases apIpInfo_source maxRetries evs staStartedState with h0 | h1
    · exact absurd (by rw [h0]; rfl) h
    · exact h1

/-- A second concrete non-zero address record, the Ethernet address of the
witness run (10.0.0.2/24 with gateway 10.0.0.1). -/
def sampleEthIp : IpInfo := ⟨0x0A000002, 0xFFFFFF00, 0x0A000001⟩

/-- A third concrete non-zero address record, the AP address of the witness
run (192.168.4.1/24). -/
def sampleApIp : IpInfo := ⟨0xC0A80401, 0xFFFFFF00, 0xC0A80401⟩

/-- Scenario run touching all three interfaces: STA and Ethernet connect
and then lose their links, the AP starts and then stops, so at the final
quiescent point all three stored addresses are non-zero while no interface
status is Connected. -/
def c4AllDemoEvents : List RawEvent :=
  [RawEvent.wifiStaStart, RawEvent.ipGotIp GotIpIf.staIf sampleIp,
    RawEvent.ethStart, RawEvent.ethConnected,
    RawEvent.ipGotIp GotIpIf.ethIf sampleEthIp,
    RawEvent.wifiApStart sampleApIp,
    RawEvent.wifiStaDisconnected, RawEvent.ethDisconnected,
    RawEvent.wifiApStop]

/-- Witness for C4 amended at the concrete run in which all three stored
addresses end up non-zero and stale. -/
theorem c4_stale_address_provenance_witness :
    ((runHandler 0 staStartedState c4AllDemoEvents).1.status.staIpInfo ≠ IpInfo.zero ∧
      (runHandler 0 staStartedState c4AllDemoEvents).1.status.ethIpInfo ≠ IpInfo.zero ∧
      (runHandler 0 staStartedState c4AllDemoEvents).1.status.apIpInfo ≠ IpInfo.zero) ∧
    (∃ info, RawEvent.ipGotIp GotIpIf.staIf info ∈ c4AllDemoEvents ∧
      (runHandler 0 staStartedState c4AllDemoEvents).1.status.staIpInfo = info) ∧
    (∃ info, RawEvent.ipGotIp GotIpIf.ethIf info ∈ c4AllDemoEvents ∧
      (runHandler 0 staStartedState c4AllDemoEvents).1.status.ethIpInfo = info) ∧
    (∃ info, RawEvent.wifiApStart info ∈ c4AllDemoEvents ∧
      (runHandler 0 staStartedState c4AllDemoEvents).1.status.apIpInfo = info) :=
  ⟨⟨by decide, by decide, by decide⟩,
    (c4_stale_address_provenance 0 c4AllDemoEvents).1 (by decide),
    (c4_stale_address_provenance 0 c4AllDemoEvents).2.1 (by decide),
    (c4_stale_address_provenance 0 c4AllDemoEvents).2.2 (by decide)⟩

/- The STA retry budget over runs of raw disconnect events. -/

theorem countConnecting_append (l1 l2 : List Action) :
    countConnecting (l1 ++ l2) = countConnecting l1 + countConnecting l2 := by
  simp [countConnecting, List.filter_append]

theorem sta_disconnect_give_up (maxRetries : Int) (s : State)
    (hM : 0 ≤ maxRetries) (hn : maxRetries ≤ s.staRetryCount) :
    (event_handler maxRetries s RawEvent.wifiStaDisconnected).1.staRetryCount =
      s.staRetryCount ∧
    (event_handler maxRetries s RawEvent.wifiStaDisconnected).1.status.staStatus =
      NetStatus.disconnected ∧
    countConnecting (event_handler maxRetries s RawEvent.wifiStaDisconnected).2 = 0 ∧
    (event_handler maxRetries s RawEvent.wifiStaDisconnected).2.all
      (fun a => a = Action.emit staDisconnectedEvent) = true := by
  have hc : ¬(maxRetries < 0 ∨ s.staRetryCount < maxRetries) := by omega
  cases hcb : s.hasCallback <;>
    simp [event_handler, hc, emitIf, hcb, countConnecting, isConnectingEmit,
      staDisconnectedEvent]

theorem sta_disconnect_retry_step (maxRetries : Int) (s : State)
    (hc : maxRetries < 0 ∨ s.staRetryCount < maxRetries) :
    (event_handler maxRetries s RawEvent.wifiStaDisconnected).1.staRetryCount =
      s.staRetryCount + 1 ∧
    (event_handler maxRetries s RawEvent.wifiStaDisconnected).1.status.staStatus =
      NetStatus.connecting ∧
    countConnecting (event_handler maxRetries s RawEvent.wifiStaDisconnected).2 ≤ 1 := by
  cases hcb : s.hasCallback <;>
    simp [event_handler, hc, emitIf, hcb, countConnecting, isConnectingEmit,
      staDisconnectedEvent]

theorem c5_run (maxRetries : Int) (hM : 0 ≤ maxRetries) :
    ∀ (k : Nat) (s : State), 0 ≤ s.staRetryCount → s.staRetryCount ≤ maxRetries →
      (runHandler maxRetries s (disconnects k)).1.staRetryCount =
        min (s.staRetryCount + k) maxRetries ∧
      countConnecting (runHandler maxRetries s (disconnects k)).2 ≤
        (min (s.staRetryCount + k) maxRetries - s.staRetryCount).toNat := by
  intro k
  induction k with
  | zero =>
      intro s h0 hle
      constructor
      · simp only [disconnects, List.replicate, runHandler]; omega
      · simp [disconnects, List.replicate, runHandler, countConnecting]
  | succ k ih =>
      intro s h0 hle
      have hcons : disconnects (k + 1) = RawEvent.wifiStaDisconnected :: disconnects k := by
        simp [disconnects, List.replicate_succ]
      rw [hcons]
      have hrun1 : (runHandler maxRetries s
            (RawEvent.wifiStaDisconnected :: disconnects k)).1 =
          (runHandler maxRetries
            (event_handler maxRetries s RawEvent.wifiStaDisconnected).1 (disconnects k)).1 := rfl
      have hrun2 : (runHandler maxRetries s
            (RawEvent.wifiStaDisconnected :: disconnects k)).2 =
          (event_handler maxRetries s RawEvent.wifiStaDisconnected).2 ++
            (runHandler maxRetries
              (event_handler maxRetries s RawEvent.wifiStaDisconnected).1 (disconnects k)).2 := rfl
      by_cases hc : maxRetries < 0 ∨ s.staRetryCount < maxRetries
      · obtain ⟨hr, _, hcnt⟩ := sta_disconnect_retry_step maxRetries s hc
        obtain ⟨ih1, ih2⟩ := ih (event_handler maxRetries s RawEvent.wifiStaDisconnected).1
          (by omega) (by omega)
        constructor
        · rw [hrun1, ih1, hr]; omega
        · rw [hrun2, countConnecting_append]
          rw [hr] at ih2
          omega
      · obtain ⟨hr, _, hcnt, _⟩ := sta_disconnect_give_up maxRetries s hM (by omega)
        obtain ⟨ih1, ih2⟩ := ih (event_handler maxRetries s RawEvent.wifiStaDisconnected).1
          (by omega) (by omega)
        constructor
        · rw [hrun1, ih1, hr]; omega
        · rw [hrun2, countConnecting_append, hcnt]
          rw [hr] at ih2
          omega

/-- C5: for every run of raw STA disconnect events with configured
max-retries M ≥ 0 from the started STA state, the number of Connecting
(reconnect-attempt) emissions never exceeds M and the retry counter never
exceeds M; and from any state whose counter has reached M, a further raw
disconnect emits no Connecting event (every delivered event is the plain
Disconnected event, so no distinct give-up event either), leaves the status
Disconnected, and leaves the counter unchanged. -/
theorem c5_retry_bound (maxRetries : Int) (hM : 0 ≤ maxRetries) :
    (∀ k : Nat,
      countConnecting (runHandler maxRetries staStartedState (disconnects k)).2 ≤
        maxRetries.toNat ∧
      (runHandler maxRetries staStartedState (disconnects k)).1.staRetryCount ≤
        maxRetries) ∧
    (∀ s : State, maxRetries ≤ s.staRetryCount →
      countConnecting (event_handler maxRetries s RawEvent.wifiStaDisconnected).2 = 0 ∧
      (event_handler maxRetries s RawEvent.wifiStaDisconnected).2.all
        (fun a => a = Action.emit staDisconnectedEvent) = true ∧
      (event_handler maxRetries s RawEvent.wifiStaDisconnected).1.status.staStatus =
        NetStatus.disconnected ∧
      (event_handler maxRetries s RawEvent.wifiStaDisconnected).1.staRetryCount =
        s.staRetryCount) := by
  constructor
  · intro k
    have h0 : staStartedState.staRetryCount = 0 := by decide
    have h := c5_run maxRetries hM k staStartedState (by rw [h0]) (by rw [h0]; exact hM)
    rw [h0] at h
    exact ⟨by omega, by omega⟩
  · intro s hn
    obtain ⟨h1, h2, h3, h4⟩ := sta_disconnect_give_up maxRetries s hM hn
    exact ⟨h3, h4, h2, h1⟩

/-- A state whose retry counter has reached the configured maximum of 3. -/
def giveUpState : State :=
  { staStartedState with staRetryCount := 3 }

/-- Witness for C5 at max-retries 3, five raw disconnects, and the
exhausted-counter state. -/
theorem c5_retry_bound_witness :
    (0 : Int) ≤ 3 ∧ (3 : Int) ≤ giveUpState.staRetryCount ∧
    countConnecting (runHandler 3 staStartedState (disconnects 5)).2 ≤ (3 : Int).toNat ∧
    countConnecting (event_handler 3 giveUpState RawEvent.wifiStaDisconnected).2 = 0 :=
  ⟨by decide, by decide, ((c5_retry_bound 3 (by decide)).1 5).1,
    ((c5_retry_bound 3 (by decide)).2 giveUpState (by decide)).1⟩

end NetManager
